import Mathlib

/-!
Shallow embedding of the filter-and-reshape core of the DK housing
affordability dashboard (`src/app.py`) and verification of its
specification claims.

The panel dataset is modelled as a list of rows.  Each row carries the
`Year`, `Municipality` and `PriceType` columns plus `value`, the single
metric column selected by the page (`metric_for_use` in the source); the
claims under study each concern one metric column at a time, so only the
selected column is represented.  Pandas `NaN` cells arising from the
pivot are modelled as `Option ℚ` (`none` = missing), and the IEEE-754
non-finite values produced by float division are modelled by the
`PFloat` type below.
-/

namespace DKHousing

/-- One row of the long-format panel dataset (`sales_data` in `app.py`).
`value` is the metric column selected for the page (`metric_for_use`). -/
structure Row where
  year : Int
  municipality : String
  priceType : String
  value : ℚ
deriving DecidableEq, Repr

/-! ### Recency indexer (`app.py` lines 46-81)

The source collects the distinct years whose `PriceType` is not
`"Predicted price"`, sorts them descending (`unique_years.sort(reverse=True)`)
and zips them with `1..n` into the dict `annual_recency`; mapping a year
through the dict with `fillna(0)` yields the `Recency` column. -/

/-- Distinct historical years of the dataset, sorted descending:
`unique_years` in the source after `sort(reverse=True)`. -/
def unique_years (df : List Row) : List Int :=
  (((df.filter (fun r => r.priceType ≠ "Predicted price")).map Row.year).dedup).insertionSort
    (fun a b => b ≤ a)

/-- Lookup of a year in the descending year list zipped with ranks `1..n`,
with `fillna(0)` for years absent from the dict: the value of the
`Recency` column for a year.  `yearRank ys y` is `i + 1` when `y` sits at
position `i` of `ys`, and `0` when `y ∉ ys`. -/
def yearRank : List Int → Int → Nat
  | [], _ => 0
  | a :: t, y => if a = y then 1 else if y ∈ t then yearRank t y + 1 else 0

/-- The map `annual_recency` applied to a year, with `fillna(0)`: the `Recency`
column of the dataset. -/
def recency (df : List Row) (y : Int) : Nat :=
  yearRank (unique_years df) y

/-! ### Price-type resolver (`filter_price_type_new`, lines 264-276)

The source's `if/elif/elif` has no `else` branch: an unrecognised
combination leaves `allowed_types` unassigned and the function raises
`UnboundLocalError`.  The crash is modelled by `Except.error`. -/

/-- Python error outcomes reachable in the embedded fragments. -/
inductive PyError where
  | unboundLocal
deriving DecidableEq, Repr

instance {ε α : Type} [DecidableEq ε] [DecidableEq α] : DecidableEq (Except ε α) := fun x y =>
  match x, y with
  | .ok a, .ok b =>
    match decEq a b with
    | isTrue h => isTrue (by rw [h])
    | isFalse h => isFalse (by intro hc; injection hc; contradiction)
  | .ok _, .error _ => isFalse (by intro hc; injection hc)
  | .error _, .ok _ => isFalse (by intro hc; injection hc)
  | .error e, .error g =>
    match decEq e g with
    | isTrue h => isTrue (by rw [h])
    | isFalse h => isFalse (by intro hc; injection hc; contradiction)

/-- Resolver `filter_price_type_new` (lines 264-276): maps a price-type combination
name to the list of `PriceType` tags to retain; an unrecognised name
crashes with `UnboundLocalError` (no `else` branch assigns
`allowed_types`). -/
def filter_price_type_new (selected_combination : String) :
    Except PyError (List String) :=
  if selected_combination = "Historical data incl. estimates" then
    .ok ["Actual price", "Estimated price"]
  else if selected_combination = "Historical data excl. estimates" then
    .ok ["Actual price"]
  else if selected_combination = "Historical data and predictions" then
    .ok ["Actual price", "Estimated price", "Predicted price"]
  else
    .error .unboundLocal

/-- Resolver `filter_metric` (lines 159-172): maps a user-facing metric label to the
internal column name; its `else` branch returns Python `None` (modelled
`none`) — it does not raise. -/
def filter_metric (selected_metric : String) : Option String :=
  if selected_metric = "Actual price" then some "AvgSalesPrice"
  else if selected_metric = "Price index" then some "AvgSalesPriceIdx"
  else if selected_metric = "Buyable m² with annual income" then some "M2AffordedTotal"
  else if selected_metric = "Years of income to buy 50 m²" then some "YearsoBuy50M2Total"
  else none

/-! ### Rounding (`np.round`, round-half-to-even) -/

/-- IEEE/numpy rounding of a rational to the nearest integer, halves to
even (`np.round` semantics, idealised over ℚ). -/
def roundHalfEven (q : ℚ) : Int :=
  let f : Int := Int.floor q
  let frac : ℚ := q - f
  if frac < 1/2 then f
  else if 1/2 < frac then f + 1
  else if f % 2 = 0 then f else f + 1

/-- Rounding `np.round(q, d)`: round to `d` decimal places, halves to even. -/
def roundDec (d : Nat) (q : ℚ) : ℚ :=
  (roundHalfEven (q * (10 : ℚ) ^ d) : ℚ) / (10 : ℚ) ^ d

/-! ### Per-call-site metric rounding rules -/

/-- Rounding applied in `page_avg_by_mncp` (lines 447-453) and likewise in
`page_annual_price_overview` (lines 1056-1062): prices to 0 decimals,
other (index) metrics to 2 decimals. -/
def roundMetric_avg_by_mncp (metric_for_use : String) (x : ℚ) : ℚ :=
  if metric_for_use = "AvgSalesPrice" then roundDec 0 x else roundDec 2 x

/-- Rounding of the year columns in `page_hist_changes` (lines 914-920):
prices to 0 decimals (then cast to int), other metrics to 1 decimal. -/
def roundCol_hist_changes (metric_for_use : String) (x : ℚ) : ℚ :=
  if metric_for_use = "AvgSalesPrice" then roundDec 0 x else roundDec 1 x

/-- Rounding in `page_annual_afford_overview` (line 1286): the
`M2AffordedTotal` affordability ratio is rounded to 0 decimals. -/
def roundMetric_afford_overview (x : ℚ) : ℚ :=
  roundDec 0 x

/-! ### View-building filter (`page_avg_by_mncp`, lines 428-434)

`df[df["Recency"] <= n_years]`, then the municipality filter, then the
price-type filter.  The `Recency` column is the recency map applied to
`Year` with `fillna(0)` as above. -/

/-- The filtering pipeline of `page_avg_by_mncp` (lines 428-434):
recency threshold, then municipality membership, then price type. -/
def pageAvgFilter (df : List Row) (n_years : Nat) (selected_locations : List String)
    (price_types : List String) : List Row :=
  ((df.filter (fun r => recency df r.year ≤ n_years)).filter
      (fun r => r.municipality ∈ selected_locations)).filter
    (fun r => r.priceType ∈ price_types)

/-! ### Pandas float semantics for the percent-change column

The `% change` column of `page_hist_changes` is computed by elementwise
float arithmetic on pivot columns.  A pivot cell is `Option ℚ` (`none` =
`NaN` from a municipality/year combination with no row); float results
are `PFloat`, with the IEEE-754 non-finite values `inf`, `neginf`, `nan`
produced by division by zero.  All operations are total — pandas float
arithmetic never raises. -/

/-- An idealised pandas float: a finite rational or one of the IEEE-754
non-finite values. -/
inductive PFloat where
  | num : ℚ → PFloat
  | inf : PFloat
  | neginf : PFloat
  | nan : PFloat
deriving DecidableEq, Repr

namespace PFloat

/-- The non-finite values: what a rendered table shows as `inf`/`NaN`
rather than a number — the "undefined" sentinel of the spec. -/
def isUndefined : PFloat → Bool
  | num _ => false
  | _ => true

/-- IEEE-754 subtraction. -/
def sub : PFloat → PFloat → PFloat
  | num a, num b => num (a - b)
  | num _, inf => neginf
  | num _, neginf => inf
  | inf, num _ => inf
  | inf, neginf => inf
  | neginf, num _ => neginf
  | neginf, inf => neginf
  | _, _ => nan

/-- IEEE-754 division (denominators of zero give signed infinity or, for
`0/0`, `NaN`; the float zero of the dataset is positive zero). -/
def div : PFloat → PFloat → PFloat
  | num a, num b =>
    if b = 0 then (if 0 < a then inf else if a < 0 then neginf else nan)
    else num (a / b)
  | num _, inf => num 0
  | num _, neginf => num 0
  | inf, num b => if b < 0 then neginf else inf
  | neginf, num b => if b < 0 then inf else neginf
  | _, _ => nan

/-- Multiplication by the positive constant `100`. -/
def mul100 : PFloat → PFloat
  | num a => num (100 * a)
  | inf => inf
  | neginf => neginf
  | nan => nan

/-- Rounding `np.round(x, 1)` on a float: finite values round to one decimal,
non-finite values are preserved. -/
def round1 : PFloat → PFloat
  | num a => num (roundDec 1 a)
  | x => x

end PFloat

/-- A pivot cell viewed as a float column entry: `NaN` when missing. -/
def ofCell : Option ℚ → PFloat
  | some q => .num q
  | none => .nan

/-! ### Pivot and percent change (`page_hist_changes`, lines 894-912) -/

/-- Rows retained by `page_hist_changes` before pivoting (lines 894-897):
`Year ∈ [base_year, ref_year]` and `PriceType ∈ price_types`. -/
def histChangesRows (df : List Row) (price_types : List String)
    (base_year ref_year : Int) : List Row :=
  (df.filter (fun r => r.year = base_year ∨ r.year = ref_year)).filter
    (fun r => r.priceType ∈ price_types)

/-- The index of the pandas pivot (lines 904-906): the distinct
municipalities of the filtered rows, sorted ascending (lexicographically
on the character data, which is the string order). -/
def pivotMncps (rows : List Row) : List String :=
  ((rows.map Row.municipality).dedup).insertionSort (fun a b => a.data ≤ b.data)

/-- A pivot cell: the metric value of the (unique) row of the given
municipality and year, `none` (`NaN`) when no such row exists. -/
def cell (rows : List Row) (m : String) (y : Int) : Option ℚ :=
  (rows.find? (fun r => r.municipality = m && r.year = y)).map Row.value

/-- The percent-change column `% change` (lines 909-912):
`np.round(100 * ((ref_col − base_col) / base_col), 1)` elementwise. -/
def pctChange (b r : Option ℚ) : PFloat :=
  (((ofCell r).sub (ofCell b)).div (ofCell b)).mul100.round1

/-- The pivoted comparison table of `page_hist_changes`: one entry per
municipality in the pivot index, with its base-year cell, reference-year
cell and `% change` value. -/
def histChangesTable (df : List Row) (price_types : List String)
    (base_year ref_year : Int) : List (String × Option ℚ × Option ℚ × PFloat) :=
  (pivotMncps (histChangesRows df price_types base_year ref_year)).map fun m =>
    (m, cell (histChangesRows df price_types base_year ref_year) m base_year,
      cell (histChangesRows df price_types base_year ref_year) m ref_year,
      pctChange (cell (histChangesRows df price_types base_year ref_year) m base_year)
        (cell (histChangesRows df price_types base_year ref_year) m ref_year))

/-! ### Top-N ranking (`page_annual_price_overview`, lines 1108-1115)

`sort_values("AvgSalesPrice", ascending=False)` followed by `[:n]`.  The
sort has no secondary key; it is embedded as a stable sort (rows with
equal metric values keep their input order), matching pandas/numpy
behaviour on the small arrays involved. -/

/-- Top-N most expensive municipalities (lines 1108-1114): filter to the
selected year, drop the "National average" aggregate, stable-sort by the
metric descending, take the first `n` rows. -/
def top_n_expensive (df : List Row) (year_to_show : Int) (n : Nat) : List Row :=
  (((df.filter (fun r => r.year = year_to_show)).filter
      (fun r => r.municipality ≠ "National average")).insertionSort
    (fun a b => b.value ≤ a.value)).take n

/-! ### Geo-plot selection (`page_annual_price_overview`, lines 1064-1070)

`data_to_display[data_to_display["PriceType"] == year_to_show]` compares
the string column `PriceType` with the integer `year_to_show`; Python
`==` between values of different types is `False`, modelled by `PyVal`
equality. -/

/-- A dynamically typed Python scalar as used in pandas comparisons. -/
inductive PyVal where
  | s : String → PyVal
  | i : Int → PyVal
deriving DecidableEq, Repr

/-- Python `==` on scalars: values of different types compare unequal. -/
def pyEq : PyVal → PyVal → Bool
  | .s a, .s b => a = b
  | .i a, .i b => a = b
  | _, _ => false

/-- Selection `data_selected_year` (lines 1064-1070): rows whose `PriceType` column
equals (under Python `==`) the selected integer year, with the
"National average" aggregate removed. -/
def data_selected_year (data_to_display : List Row) (year_to_show : Int) : List Row :=
  (data_to_display.filter (fun r => pyEq (.s r.priceType) (.i year_to_show))).filter
    (fun r => r.municipality ≠ "National average")

/-- A year is historical in a dataset when some row carries it with a
price type other than `"Predicted price"` (the filter of lines 52-57). -/
def isHistoricalYear (df : List Row) (y : Int) : Prop :=
  ∃ r ∈ df, r.year = y ∧ r.priceType ≠ "Predicted price"

instance (df : List Row) (y : Int) : Decidable (isHistoricalYear df y) := by
  unfold isHistoricalYear; infer_instance

/-! ### Concrete example datasets for witnesses and counterexamples -/

/-- A historical ("Actual price") Copenhagen row of the given year. -/
def histRow (y : Int) : Row := ⟨y, "København", "Actual price", 100⟩

/-- A predicted-price Copenhagen row of the given year. -/
def predRow (y : Int) : Row := ⟨y, "København", "Predicted price", 100⟩

/-- A panel spanning 10 historical years (2014-2023) and 2 future
predicted years (2024-2025). -/
def df10 : List Row :=
  [histRow 2014, histRow 2015, histRow 2016, histRow 2017, histRow 2018,
   histRow 2019, histRow 2020, histRow 2021, histRow 2022, histRow 2023,
   predRow 2024, predRow 2025]

/-- Comparison data with a zero base-year value for Odense. -/
def exRowsC2 : List Row :=
  [⟨2000, "Aarhus", "Actual price", 100⟩,
   ⟨2001, "Aarhus", "Actual price", 150⟩,
   ⟨2000, "Odense", "Actual price", 0⟩,
   ⟨2001, "Odense", "Actual price", 50⟩]

/-- Comparison data where Odense lacks a reference-year (2001) row. -/
def exRowsC4 : List Row :=
  [⟨2000, "Aarhus", "Actual price", 100⟩,
   ⟨2001, "Aarhus", "Actual price", 150⟩,
   ⟨2000, "Odense", "Actual price", 50⟩]

/-- A one-row dataset for the equal-base-and-reference-year scenario. -/
def exRowsC5 : List Row := [⟨2000, "Aarhus", "Actual price", 100⟩]

/-- Two rows with identical metric values, Odense first. -/
def rowOdense : Row := ⟨2020, "Odense", "Actual price", 10⟩

/-- Two rows with identical metric values, Aalborg second. -/
def rowAalborg : Row := ⟨2020, "Aalborg", "Actual price", 10⟩

/-- Three rows sharing one metric value, in non-alphabetical order. -/
def tiedRows : List Row :=
  [⟨2020, "Odense", "Actual price", 7⟩,
   ⟨2020, "Aalborg", "Actual price", 7⟩,
   ⟨2020, "Esbjerg", "Actual price", 7⟩]

end DKHousing

namespace DKHousing

/-! ## Helper lemmas about the recency map -/

instance : IsTotal Int fun a b => b ≤ a := ⟨fun a b => le_total b a⟩

instance : IsTrans Int fun a b => b ≤ a := ⟨fun _ _ _ h1 h2 => le_trans h2 h1⟩

lemma yearRank_eq_zero {l : List Int} {y : Int} (h : y ∉ l) : yearRank l y = 0 := by
  induction l with
  | nil => rfl
  | cons a t ih =>
    simp only [List.mem_cons, not_or] at h
    have hay : ¬ a = y := fun hay => h.1 hay.symm
    simp [yearRank, hay, h.2, ih h.2]

lemma yearRank_pos {l : List Int} {y : Int} (h : y ∈ l) : 1 ≤ yearRank l y := by
  induction l with
  | nil => cases h
  | cons a t ih =>
    by_cases hay : a = y
    · simp [yearRank, hay]
    · have hyt : y ∈ t := (List.mem_cons.mp h).resolve_left fun hh => hay hh.symm
      simp [yearRank, hay, hyt]

lemma yearRank_lt_of_sorted :
    ∀ l : List Int, l.Sorted (fun a b => b ≤ a) →
    ∀ y1 y2 : Int, y1 ∈ l → y2 ∈ l → y1 < y2 →
      yearRank l y2 < yearRank l y1 := by
  intro l
  induction l with
  | nil => intro _ y1 y2 h1 _ _; cases h1
  | cons a t ih =>
    intro hs y1 y2 h1 h2 hlt
    rw [List.sorted_cons] at hs
    by_cases hay2 : a = y2
    · have hay1 : ¬ a = y1 := fun h => absurd (hay2 ▸ h ▸ hlt) (lt_irrefl _)
      have hy1t : y1 ∈ t := (List.mem_cons.mp h1).resolve_left fun hh => hay1 hh.symm
      have hpos := yearRank_pos hy1t
      have h2' : yearRank (a :: t) y2 = 1 := by simp [yearRank, hay2]
      have h1' : yearRank (a :: t) y1 = yearRank t y1 + 1 := by
        simp [yearRank, hay1, hy1t]
      rw [h1', h2']
      omega
    · have hy2t : y2 ∈ t := (List.mem_cons.mp h2).resolve_left fun hh => hay2 hh.symm
      have hay1 : ¬ a = y1 := by
        intro h
        have hle : y2 ≤ a := hs.1 y2 hy2t
        rw [h] at hle
        omega
      have hy1t : y1 ∈ t := (List.mem_cons.mp h1).resolve_left fun hh => hay1 hh.symm
      have ihh := ih hs.2 y1 y2 hy1t hy2t hlt
      have h2' : yearRank (a :: t) y2 = yearRank t y2 + 1 := by
        simp [yearRank, hay2, hy2t]
      have h1' : yearRank (a :: t) y1 = yearRank t y1 + 1 := by
        simp [yearRank, hay1, hy1t]
      rw [h1', h2']
      omega

lemma yearRank_max {l : List Int} (hs : l.Sorted (fun a b => b ≤ a)) {y : Int}
    (hy : y ∈ l) (hmax : ∀ z ∈ l, z ≤ y) : yearRank l y = 1 := by
  cases l with
  | nil => cases hy
  | cons a t =>
    by_cases hay : a = y
    · simp [yearRank, hay]
    · exfalso
      have hyt : y ∈ t := (List.mem_cons.mp hy).resolve_left fun hh => hay hh.symm
      rw [List.sorted_cons] at hs
      exact hay (le_antisymm (hmax a (List.mem_cons_self a t)) (hs.1 y hyt))

lemma mem_unique_years {df : List Row} {y : Int} :
    y ∈ unique_years df ↔ isHistoricalYear df y := by
  unfold unique_years isHistoricalYear
  rw [List.mem_insertionSort, List.mem_dedup]
  constructor
  · intro h
    obtain ⟨r, hr, hy⟩ := List.mem_map.mp h
    have hf := List.mem_filter.mp hr
    exact ⟨r, hf.1, hy, by simpa using hf.2⟩
  · rintro ⟨r, hr, hy, hp⟩
    exact List.mem_map.mpr ⟨r, List.mem_filter.mpr ⟨hr, by simpa using hp⟩, hy⟩

lemma unique_years_sorted (df : List Row) :
    (unique_years df).Sorted (fun a b => b ≤ a) :=
  List.sorted_insertionSort _ _

/-! ## Claim theorems -/

/-- Claim C3: the recency map is strictly antitone in calendar time on
historical years (`y1 < y2 → rank y1 > rank y2`), the most recent
historical year has rank exactly 1, a dataset whose only historical year
is `y` maps `y` to rank 1, and a year that is not historical (present
only as future/predicted data, or absent) has rank 0. -/
theorem recency_map_invariants (df : List Row) :
    (∀ y1 y2 : Int, isHistoricalYear df y1 → isHistoricalYear df y2 → y1 < y2 →
      recency df y2 < recency df y1) ∧
    (∀ y : Int, isHistoricalYear df y →
      (∀ y', isHistoricalYear df y' → y' ≤ y) → recency df y = 1) ∧
    (∀ y : Int, isHistoricalYear df y →
      (∀ y', isHistoricalYear df y' → y' = y) → recency df y = 1) ∧
    (∀ y : Int, ¬ isHistoricalYear df y → recency df y = 0) := by
  refine ⟨?_, ?_, ?_, ?_⟩
  · intro y1 y2 h1 h2 hlt
    exact yearRank_lt_of_sorted _ (unique_years_sorted df) y1 y2
      (mem_unique_years.mpr h1) (mem_unique_years.mpr h2) hlt
  · intro y hy hmax
    exact yearRank_max (unique_years_sorted df) (mem_unique_years.mpr hy)
      fun z hz => hmax z (mem_unique_years.mp hz)
  · intro y hy huniq
    exact yearRank_max (unique_years_sorted df) (mem_unique_years.mpr hy)
      fun z hz => le_of_eq (huniq z (mem_unique_years.mp hz))
  · intro y hy
    exact yearRank_eq_zero fun hmem => hy (mem_unique_years.mp hmem)

/-- Witness for `recency_map_invariants` on the 12-row panel `df10`. -/
theorem recency_map_invariants_witness :
    recency df10 2023 < recency df10 2021 ∧
    recency df10 2023 = 1 ∧
    recency df10 2025 = 0 := by
  obtain ⟨hmono, hmax, -, hzero⟩ := recency_map_invariants df10
  refine ⟨hmono 2021 2023 (by decide) (by decide) (by decide),
    hmax 2023 (by decide) ?_, hzero 2025 (by decide)⟩
  intro y' hy'
  obtain ⟨r, hr, hyr, hpred⟩ := hy'
  simp only [df10, histRow, predRow, List.mem_cons, List.not_mem_nil, or_false] at hr
  rcases hr with rfl | rfl | rfl | rfl | rfl | rfl | rfl | rfl | rfl | rfl | rfl | rfl <;>
    simp_all <;> omega

/-- Claim C1: in the view-building filter, a row whose municipality passes
the location filter is kept, when historical (recency rank ≥ 1), iff its
rank is at most the threshold `n_years` and its price type is allowed;
a rank-0 (future/predicted) row passes the recency threshold for every
threshold and is retained in the final view exactly when its price type
is in the allowed set. -/
theorem view_filter_recency (df : List Row) (n_years : Nat) (locs pts : List String)
    (hn : 1 ≤ n_years) (r : Row) (hr : r ∈ df) (hloc : r.municipality ∈ locs) :
    (1 ≤ recency df r.year →
      (r ∈ pageAvgFilter df n_years locs pts ↔
        recency df r.year ≤ n_years ∧ r.priceType ∈ pts)) ∧
    (recency df r.year = 0 →
      (r ∈ pageAvgFilter df n_years locs pts ↔ r.priceType ∈ pts)) := by
  have hmem : r ∈ pageAvgFilter df n_years locs pts ↔
      (recency df r.year ≤ n_years ∧ r.priceType ∈ pts) := by
    simp [pageAvgFilter, List.mem_filter, hr, hloc]
    exact and_comm
  constructor
  · intro _
    exact hmem
  · intro h0
    rw [hmem, h0]
    simp

/-- Witness for `view_filter_recency`: filtering `df10` (10 historical
years, 2 predicted) with threshold 3 keeps the 2021 row (rank 3). -/
theorem view_filter_recency_witness :
    (1 ≤ recency df10 (histRow 2021).year →
      (histRow 2021 ∈ pageAvgFilter df10 3 ["København"]
          ["Actual price", "Estimated price", "Predicted price"] ↔
        recency df10 (histRow 2021).year ≤ 3 ∧
        (histRow 2021).priceType ∈
          ["Actual price", "Estimated price", "Predicted price"])) ∧
    (recency df10 (histRow 2021).year = 0 →
      (histRow 2021 ∈ pageAvgFilter df10 3 ["København"]
          ["Actual price", "Estimated price", "Predicted price"] ↔
        (histRow 2021).priceType ∈
          ["Actual price", "Estimated price", "Predicted price"])) :=
  view_filter_recency df10 3 ["København"]
    ["Actual price", "Estimated price", "Predicted price"]
    (by decide) (histRow 2021) (by decide) (by decide)

/-- Claim C6: the price-type resolver maps the three named combinations to
exactly {Actual, Estimated}, {Actual} and {Actual, Estimated, Predicted};
the outputs are non-empty subsets of the 3-member taxonomy, pairwise
distinct, and form a strict inclusion chain increasing in size
(excl-estimates ⊂ incl-estimates ⊂ incl-predictions). -/
theorem priceTypeResolver_taxonomy :
    filter_price_type_new "Historical data incl. estimates" =
      .ok ["Actual price", "Estimated price"] ∧
    filter_price_type_new "Historical data excl. estimates" =
      .ok ["Actual price"] ∧
    filter_price_type_new "Historical data and predictions" =
      .ok ["Actual price", "Estimated price", "Predicted price"] ∧
    (["Actual price"] : List String) ≠ [] ∧
    (["Actual price", "Estimated price"] : List String) ≠ [] ∧
    (["Actual price", "Estimated price", "Predicted price"] : List String) ≠ [] ∧
    (["Actual price"] : List String) ⊆
      ["Actual price", "Estimated price", "Predicted price"] ∧
    (["Actual price", "Estimated price"] : List String) ⊆
      ["Actual price", "Estimated price", "Predicted price"] ∧
    (["Actual price"] : List String) ≠ ["Actual price", "Estimated price"] ∧
    (["Actual price", "Estimated price"] : List String) ≠
      ["Actual price", "Estimated price", "Predicted price"] ∧
    (["Actual price"] : List String) ≠
      ["Actual price", "Estimated price", "Predicted price"] ∧
    (["Actual price"] : List String) ⊆ ["Actual price", "Estimated price"] ∧
    ¬ (["Actual price", "Estimated price"] : List String) ⊆ ["Actual price"] ∧
    ¬ (["Actual price", "Estimated price", "Predicted price"] : List String) ⊆
      ["Actual price", "Estimated price"] := by
  decide

/-- Claim C7 counterexample: the claim says any filter value outside its
closed enumeration fails with an `InvalidSelection` error.  In the code,
`filter_metric` on an unknown metric label returns Python `None` — a
normal return value, not an error of any kind — and
`filter_price_type_new` on an unknown combination crashes with a plain
`UnboundLocalError` (its `if/elif` chain has no `else`), not a dedicated
`InvalidSelection`. -/
theorem resolver_invalid_cex :
    filter_metric "Median price" = none ∧
    filter_price_type_new "All data" = Except.error PyError.unboundLocal := by
  decide

/-- Claim C7 amended: for a price-type combination outside the three named
combinations the resolver crashes with `UnboundLocalError` (there is no
dedicated `InvalidSelection` error), while for a metric label outside
the known metric list the metric resolver returns `None` normally,
without failing. -/
theorem resolver_invalid_amended (s t : String)
    (hs : s ∉ ["Historical data incl. estimates", "Historical data excl. estimates",
      "Historical data and predictions"])
    (ht : t ∉ ["Actual price", "Price index", "Buyable m² with annual income",
      "Years of income to buy 50 m²"]) :
    filter_price_type_new s = .error .unboundLocal ∧ filter_metric t = none := by
  simp only [List.mem_cons, List.mem_singleton, not_or, List.not_mem_nil] at hs ht
  obtain ⟨h1, h2, h3, -⟩ := hs
  obtain ⟨g1, g2, g3, g4, -⟩ := ht
  constructor
  · simp [filter_price_type_new, h1, h2, h3]
  · simp [filter_metric, g1, g2, g3, g4]

/-- Witness for `resolver_invalid_amended` at concrete invalid labels. -/
theorem resolver_invalid_amended_witness :
    filter_price_type_new "Quarterly data" = .error .unboundLocal ∧
    filter_metric "Average rainfall" = none :=
  resolver_invalid_amended "Quarterly data" "Average rainfall" (by decide) (by decide)

/-- Claim C9 counterexample: the claim says index/ratio metrics are rounded
to 2 decimal places uniformly at all call sites.  On the ratio metric
value 1.23, `page_annual_afford_overview` rounds to 0 decimals and
`page_hist_changes` rounds its year columns to 1 decimal, both differing
from the 2-decimal rule that `page_avg_by_mncp` applies. -/
theorem rounding_rule_cex :
    roundMetric_afford_overview (123/100) ≠ roundDec 2 (123/100) ∧
    roundCol_hist_changes "M2AffordedTotal" (123/100) ≠ roundDec 2 (123/100) ∧
    roundMetric_avg_by_mncp "M2AffordedTotal" (123/100) = roundDec 2 (123/100) := by
  have h : ("M2AffordedTotal" : String) ≠ "AvgSalesPrice" := by decide
  norm_num [roundMetric_afford_overview, roundCol_hist_changes, roundMetric_avg_by_mncp,
    h, roundDec, roundHalfEven]

/-- Claim C9 amended: absolute price metrics are rounded to 0 decimals at
every cited call site, but the rounding of index/ratio metrics is not
uniform: 2 decimals in `page_avg_by_mncp`, 1 decimal in the year columns
of `page_hist_changes`, and 0 decimals in
`page_annual_afford_overview`. -/
theorem rounding_rule_amended (m : String) (x : ℚ) (hm : m ≠ "AvgSalesPrice") :
    roundMetric_avg_by_mncp "AvgSalesPrice" x = roundDec 0 x ∧
    roundMetric_avg_by_mncp m x = roundDec 2 x ∧
    roundCol_hist_changes "AvgSalesPrice" x = roundDec 0 x ∧
    roundCol_hist_changes m x = roundDec 1 x ∧
    roundMetric_afford_overview x = roundDec 0 x := by
  simp [roundMetric_avg_by_mncp, roundCol_hist_changes, roundMetric_afford_overview, hm]

/-- Witness for `rounding_rule_amended` at the ratio metric and 1.23. -/
theorem rounding_rule_amended_witness :
    roundMetric_avg_by_mncp "AvgSalesPrice" (123/100) = roundDec 0 (123/100) ∧
    roundMetric_avg_by_mncp "M2AffordedTotal" (123/100) = roundDec 2 (123/100) ∧
    roundCol_hist_changes "AvgSalesPrice" (123/100) = roundDec 0 (123/100) ∧
    roundCol_hist_changes "M2AffordedTotal" (123/100) = roundDec 1 (123/100) ∧
    roundMetric_afford_overview (123/100) = roundDec 0 (123/100) :=
  rounding_rule_amended "M2AffordedTotal" (123/100) (by decide)

/-- Claim C10: in `page_annual_price_overview`, the geo-plot selection
compares the string `PriceType` column with the selected integer year
under Python `==`, which is `False` across types; for every dataset
whose `PriceType` values lie in the closed string taxonomy and every
integer year, the selection is empty. -/
theorem geo_select_empty (df : List Row) (y : Int)
    (hpt : ∀ r ∈ df, r.priceType ∈
      ["Actual price", "Estimated price", "Predicted price"]) :
    data_selected_year df y = [] := by
  have h1 : df.filter (fun r => pyEq (.s r.priceType) (.i y)) = [] := by
    rw [List.filter_eq_nil_iff]
    intro r _
    simp [pyEq]
  simp [data_selected_year, h1]

/-- Witness for `geo_select_empty` on the concrete 12-row panel. -/
theorem geo_select_empty_witness : data_selected_year df10 2023 = [] :=
  geo_select_empty df10 2023 (by decide)

/-! ## The pivoted comparison table: structure lemma and evaluations -/

lemma histChangesTable_mem {df : List Row} {pts : List String} {base ref : Int}
    {e : String × Option ℚ × Option ℚ × PFloat}
    (he : e ∈ histChangesTable df pts base ref) :
    e.1 ∈ pivotMncps (histChangesRows df pts base ref) ∧
    e.2.1 = cell (histChangesRows df pts base ref) e.1 base ∧
    e.2.2.1 = cell (histChangesRows df pts base ref) e.1 ref ∧
    e.2.2.2 = pctChange e.2.1 e.2.2.1 := by
  simp only [histChangesTable, List.mem_map] at he
  obtain ⟨m, hm, heq⟩ := he
  cases heq
  exact ⟨hm, rfl, rfl, rfl⟩

lemma histChangesTable_keys (df : List Row) (pts : List String) (base ref : Int) :
    (histChangesTable df pts base ref).map (fun e => e.1) =
      pivotMncps (histChangesRows df pts base ref) := by
  simp only [histChangesTable]
  generalize pivotMncps (histChangesRows df pts base ref) = l
  induction l with
  | nil => rfl
  | cons a t ih => simp [ih]

lemma pctChange_nan_left (r : Option ℚ) : pctChange none r = PFloat.nan := by
  cases r <;>
    simp [pctChange, ofCell, PFloat.sub, PFloat.div, PFloat.mul100, PFloat.round1]

lemma pctChange_nan_right (b : Option ℚ) : pctChange b none = PFloat.nan := by
  cases b <;>
    simp [pctChange, ofCell, PFloat.sub, PFloat.div, PFloat.mul100, PFloat.round1]

lemma pctChange_some_of_ne (b r : ℚ) (hb : b ≠ 0) :
    pctChange (some b) (some r) = PFloat.num (roundDec 1 ((r - b) / b * 100)) := by
  simp only [pctChange, ofCell, PFloat.sub, PFloat.div, PFloat.mul100, PFloat.round1,
    if_neg hb]
  rw [mul_comm 100 ((r - b) / b)]

lemma pctChange_zero_base (r : ℚ) (hr : r ≠ 0) :
    pctChange (some 0) (some r) = (if 0 < r then PFloat.inf else PFloat.neginf) := by
  rcases lt_or_gt_of_ne hr with h | h
  · have hnl : ¬ (0 : ℚ) < r := not_lt.mpr h.le
    simp [pctChange, ofCell, PFloat.sub, PFloat.div, PFloat.mul100, PFloat.round1,
      hnl, h]
  · simp [pctChange, ofCell, PFloat.sub, PFloat.div, PFloat.mul100, PFloat.round1, h]

lemma histChangesRows_exRowsC2 :
    histChangesRows exRowsC2 ["Actual price"] 2000 2001 = exRowsC2 := by
  simp [histChangesRows, exRowsC2]

lemma pivotMncps_exRowsC2 : pivotMncps exRowsC2 = ["Aarhus", "Odense"] := by
  have hAO : ("Aarhus" : String).data ≤ ("Odense" : String).data := by decide
  simp [pivotMncps, exRowsC2, List.dedup, List.insertionSort, List.orderedInsert, hAO]

lemma histChangesTable_exRowsC2 :
    histChangesTable exRowsC2 ["Actual price"] 2000 2001 =
      [("Aarhus", some 100, some 150, PFloat.num 50),
       ("Odense", some 0, some 50, PFloat.inf)] := by
  have h1 : cell exRowsC2 "Aarhus" 2000 = some 100 := by
    simp [cell, exRowsC2, List.find?]
  have h2 : cell exRowsC2 "Aarhus" 2001 = some 150 := by
    simp [cell, exRowsC2, List.find?]
  have h3 : cell exRowsC2 "Odense" 2000 = some 0 := by
    simp [cell, exRowsC2, List.find?]
  have h4 : cell exRowsC2 "Odense" 2001 = some 50 := by
    simp [cell, exRowsC2, List.find?]
  have hp1 : pctChange (some (100 : ℚ)) (some 150) = PFloat.num 50 := by
    rw [pctChange_some_of_ne _ _ (by norm_num)]
    norm_num [roundDec, roundHalfEven]
  have hp2 : pctChange (some (0 : ℚ)) (some 50) = PFloat.inf := by
    rw [pctChange_zero_base _ (by norm_num)]
    norm_num
  simp only [histChangesTable, histChangesRows_exRowsC2, pivotMncps_exRowsC2,
    List.map, h1, h2, h3, h4, hp1, hp2]

/-- Claim C2: in the pivoted comparison table, a municipality with values
for both years gets `% change = round((ref − base) / base * 100, 1)`
when the base value is nonzero; with base value 0 and nonzero reference
value the (total, exception-free) computation yields the non-finite
"undefined" sentinel (the IEEE infinity pandas produces), never `0.0`,
and only that row is affected — every entry's `% change` depends only on
its own two cells. -/
theorem pct_change_formula_and_zero (df : List Row) (pts : List String)
    (base ref : Int) (m : String) (cb cr : Option ℚ) (c : PFloat) (b r : ℚ)
    (he : (m, cb, cr, c) ∈ histChangesTable df pts base ref)
    (hb : cb = some b) (hr : cr = some r) :
    (b ≠ 0 → c = PFloat.num (roundDec 1 ((r - b) / b * 100))) ∧
    (b = 0 → r ≠ 0 → c.isUndefined = true ∧ c ≠ PFloat.num 0) := by
  obtain ⟨-, -, -, hc⟩ := histChangesTable_mem he
  simp only at hc
  subst hb hr
  constructor
  · intro hb0
    rw [hc, pctChange_some_of_ne _ _ hb0]
  · intro hb0 hr0
    subst hb0
    rw [hc, pctChange_zero_base _ hr0]
    rcases lt_or_gt_of_ne hr0 with h | h
    · rw [if_neg (not_lt.mpr h.le)]
      exact ⟨rfl, fun hq => PFloat.noConfusion hq⟩
    · rw [if_pos h]
      exact ⟨rfl, fun hq => PFloat.noConfusion hq⟩

/-- Witness for `pct_change_formula_and_zero` at the Aarhus entry of the
concrete table (base 100, reference 150, `% change` 50.0). -/
theorem pct_change_formula_and_zero_witness :
    ((100 : ℚ) ≠ 0 →
      PFloat.num 50 = PFloat.num (roundDec 1 (((150 : ℚ) - 100) / 100 * 100))) ∧
    ((100 : ℚ) = 0 → (150 : ℚ) ≠ 0 →
      (PFloat.num 50).isUndefined = true ∧ PFloat.num 50 ≠ PFloat.num 0) :=
  pct_change_formula_and_zero exRowsC2 ["Actual price"] 2000 2001 "Aarhus"
    (some 100) (some 150) (PFloat.num 50) 100 150
    (by rw [histChangesTable_exRowsC2]; simp) rfl rfl

/-- Claim C4 counterexample: the claim says a municipality lacking a row
for the base or reference year is excluded from the pivoted table (with
the exclusion count reported).  In the code, Odense has no 2001 row yet
appears in the pivoted table with a `NaN` reference cell and `NaN`
`% change`; nothing is dropped and no count of any kind is computed. -/
theorem pivot_missing_cex :
    cell (histChangesRows exRowsC4 ["Actual price"] 2000 2001) "Odense" 2001 = none ∧
    histChangesTable exRowsC4 ["Actual price"] 2000 2001 =
      [("Aarhus", some 100, some 150, PFloat.num 50),
       ("Odense", some 50, none, PFloat.nan)] := by
  have hrows : histChangesRows exRowsC4 ["Actual price"] 2000 2001 = exRowsC4 := by
    simp [histChangesRows, exRowsC4]
  have hpiv : pivotMncps exRowsC4 = ["Aarhus", "Odense"] := by
    have hAO : ("Aarhus" : String).data ≤ ("Odense" : String).data := by decide
    simp [pivotMncps, exRowsC4, List.dedup, List.insertionSort, List.orderedInsert, hAO]
  have h1 : cell exRowsC4 "Aarhus" 2000 = some 100 := by
    simp [cell, exRowsC4, List.find?]
  have h2 : cell exRowsC4 "Aarhus" 2001 = some 150 := by
    simp [cell, exRowsC4, List.find?]
  have h3 : cell exRowsC4 "Odense" 2000 = some 50 := by
    simp [cell, exRowsC4, List.find?]
  have h4 : cell exRowsC4 "Odense" 2001 = none := by
    simp [cell, exRowsC4, List.find?]
  have hp1 : pctChange (some (100 : ℚ)) (some 150) = PFloat.num 50 := by
    rw [pctChange_some_of_ne _ _ (by norm_num)]
    norm_num [roundDec, roundHalfEven]
  refine ⟨by rw [hrows]; exact h4, ?_⟩
  simp only [histChangesTable, hrows, hpiv, List.map, h1, h2, h3, h4, hp1,
    pctChange_nan_right]

/-- Claim C4 amended: a municipality appears in the pivoted comparison
table iff it has at least one row among the filtered base/reference-year
rows — a municipality missing one of the two years is kept, its missing
cell is `NaN` and its `% change` is `NaN`; no count of affected
municipalities is computed anywhere. -/
theorem pivot_missing_amended (df : List Row) (pts : List String)
    (base ref : Int) (m : String) :
    (m ∈ (histChangesTable df pts base ref).map (fun e => e.1) ↔
      ∃ r ∈ histChangesRows df pts base ref, r.municipality = m) ∧
    (∀ cb cr c, (m, cb, cr, c) ∈ histChangesTable df pts base ref →
      cb = none ∨ cr = none → c = PFloat.nan) := by
  constructor
  · rw [histChangesTable_keys]
    simp [pivotMncps, List.mem_insertionSort, List.mem_dedup, List.mem_map]
  · intro cb cr c he hnone
    obtain ⟨-, -, -, hc⟩ := histChangesTable_mem he
    simp only at hc
    rcases hnone with h | h
    · subst h
      rw [hc, pctChange_nan_left]
    · subst h
      rw [hc, pctChange_nan_right]

/-- Witness for `pivot_missing_amended` at Odense in the concrete
missing-reference-year table. -/
theorem pivot_missing_amended_witness :
    ("Odense" ∈ (histChangesTable exRowsC4 ["Actual price"] 2000 2001).map
        (fun e => e.1) ↔
      ∃ r ∈ histChangesRows exRowsC4 ["Actual price"] 2000 2001,
        r.municipality = "Odense") ∧
    (∀ cb cr c,
      ("Odense", cb, cr, c) ∈ histChangesTable exRowsC4 ["Actual price"] 2000 2001 →
      cb = none ∨ cr = none → c = PFloat.nan) :=
  pivot_missing_amended exRowsC4 ["Actual price"] 2000 2001 "Odense"

lemma histChangesTable_exRowsC5 :
    histChangesTable exRowsC5 ["Actual price"] 2000 2000 =
      [("Aarhus", some 100, some 100, PFloat.num 0)] := by
  have hrows : histChangesRows exRowsC5 ["Actual price"] 2000 2000 = exRowsC5 := by
    simp [histChangesRows, exRowsC5]
  have hpiv : pivotMncps exRowsC5 = ["Aarhus"] := by
    simp [pivotMncps, exRowsC5, List.dedup, List.insertionSort, List.orderedInsert]
  have h1 : cell exRowsC5 "Aarhus" 2000 = some 100 := by
    simp [cell, exRowsC5, List.find?]
  have hp : pctChange (some (100 : ℚ)) (some 100) = PFloat.num 0 := by
    rw [pctChange_some_of_ne _ _ (by norm_num)]
    norm_num [roundDec, roundHalfEven]
  simp only [histChangesTable, hrows, hpiv, List.map, h1, hp]

/-- Claim C5 counterexample: the claim says an equal base and reference
year fails with an `InvalidRange` error and no comparison table is
produced.  The code performs no such check: with base = ref = 2000 it
produces a non-empty comparison table (with `% change` 0.0). -/
theorem base_eq_ref_cex :
    histChangesTable exRowsC5 ["Actual price"] 2000 2000 =
      [("Aarhus", some 100, some 100, PFloat.num 0)] :=
  histChangesTable_exRowsC5

/-- Claim C5 amended: no `base ≠ ref` precondition exists; when the two
selected years are equal, the pipeline still produces a comparison table
in which both year cells of each municipality coincide and the
`% change` is 0.0 whenever the (shared) value is nonzero. -/
theorem base_eq_ref_amended (df : List Row) (pts : List String) (y : Int)
    (m : String) (cb cr : Option ℚ) (c : PFloat)
    (he : (m, cb, cr, c) ∈ histChangesTable df pts y y) :
    cb = cr ∧ ∀ q : ℚ, cb = some q → q ≠ 0 → c = PFloat.num 0 := by
  obtain ⟨-, hb, hr, hc⟩ := histChangesTable_mem he
  simp only at hb hr hc
  refine ⟨hb.trans hr.symm, ?_⟩
  intro q hq hq0
  have hq' : cr = some q := (hb.trans hr.symm) ▸ hq
  rw [hc, hq, hq']
  norm_num [pctChange, ofCell, PFloat.sub, PFloat.div, hq0, PFloat.mul100,
    PFloat.round1, roundDec, roundHalfEven]

/-- Witness for `base_eq_ref_amended` at the single-row table. -/
theorem base_eq_ref_amended_witness :
    some (100 : ℚ) = some (100 : ℚ) ∧
    ∀ q : ℚ, some (100 : ℚ) = some q → q ≠ 0 → PFloat.num 0 = PFloat.num 0 :=
  base_eq_ref_amended exRowsC5 ["Actual price"] 2000 "Aarhus"
    (some 100) (some 100) (PFloat.num 0)
    (by rw [histChangesTable_exRowsC5]; simp)

/-! ## Top-N tie ordering -/

lemma insertionSort_of_forall_rel {α : Type} (rel : α → α → Prop) [DecidableRel rel]
    (l : List α) (h : ∀ a ∈ l, ∀ b ∈ l, rel a b) : l.insertionSort rel = l := by
  induction l with
  | nil => rfl
  | cons x t ih =>
    have ht : ∀ a ∈ t, ∀ b ∈ t, rel a b := fun a ha b hb =>
      h a (List.mem_cons_of_mem _ ha) b (List.mem_cons_of_mem _ hb)
    simp only [List.insertionSort]
    rw [ih ht]
    cases t with
    | nil => rfl
    | cons y s =>
      simp only [List.orderedInsert]
      rw [if_pos (h x (List.mem_cons_self _ _) y
        (List.mem_cons_of_mem _ (List.mem_cons_self _ _)))]

/-- Claim C8 counterexample: the claim says municipalities with identical
metric values always appear in Municipality-name-ascending order,
independent of input row order.  The ranking sorts by the metric only,
with no secondary key: on two tied rows it returns them in input order —
`["Odense", "Aalborg"]` for one input order (not alphabetical) and
`["Aalborg", "Odense"]` for the other, so the relative order of ties
depends on the input row order. -/
theorem topn_tiebreak_cex :
    (top_n_expensive [rowOdense, rowAalborg] 2020 2).map Row.municipality =
      ["Odense", "Aalborg"] ∧
    (top_n_expensive [rowAalborg, rowOdense] 2020 2).map Row.municipality =
      ["Aalborg", "Odense"] ∧
    rowOdense.value = rowAalborg.value := by
  refine ⟨?_, ?_, rfl⟩ <;>
    norm_num [top_n_expensive, rowOdense, rowAalborg, List.insertionSort,
      List.orderedInsert]

/-- Claim C8 amended: the top-N ranking's sort is stable with no secondary
key, so tied municipalities keep their input row order (and hence the
tie order is input-order-dependent, not alphabetical): when all rows
carry the same metric value the ranking returns the filtered rows in
input order, truncated to `n`. -/
theorem topn_tiebreak_amended (df : List Row) (y : Int) (n : Nat) (c : ℚ)
    (hall : ∀ r ∈ df, r.value = c) :
    top_n_expensive df y n =
      ((df.filter (fun r => r.year = y)).filter
        (fun r => r.municipality ≠ "National average")).take n := by
  unfold top_n_expensive
  congr 1
  apply insertionSort_of_forall_rel
  intro a ha b hb
  have ha' : a ∈ df := List.mem_of_mem_filter (List.mem_of_mem_filter ha)
  have hb' : b ∈ df := List.mem_of_mem_filter (List.mem_of_mem_filter hb)
  rw [hall a ha', hall b hb']

/-- Witness for `topn_tiebreak_amended` on three all-tied rows. -/
theorem topn_tiebreak_amended_witness :
    top_n_expensive tiedRows 2020 2 =
      ((tiedRows.filter (fun r => r.year = 2020)).filter
        (fun r => r.municipality ≠ "National average")).take 2 :=
  topn_tiebreak_amended tiedRows 2020 2 7 (by decide)

end DKHousing
